import Mathlib

/-!
Shallow embedding of the `stones` fixed-size linear-algebra library
(src/number_traits.rs, src/vector.rs, src/matrix.rs).

Rust trait bounds (`Zero`, `One`, `std::ops::Add/Sub/Mul`) are embedded as
explicit operation records passed to each generic function, mirroring the
source's generic signatures.  Vectors `[T; n]` and matrices `[T; n*n]`
(row-major flat arrays) are embedded as `Fin n → T`.
-/

namespace Stones

/-- Trait for getting the 0 value of the type implementing the trait
(src/number_traits.rs, `Zero`). -/
structure Zero (T : Type) where
  zero : T

/-- Trait for getting the 1 value of the type implementing the trait
(src/number_traits.rs, `One`). -/
structure One (T : Type) where
  one : T

/-- Embedding of the `std::ops::Add<Output=T>` bound used by the generic functions. -/
structure Add (T : Type) where
  add : T → T → T

/-- Embedding of the `std::ops::Sub<Output=T>` bound used by the generic functions. -/
structure Sub (T : Type) where
  sub : T → T → T

/-- Embedding of the `std::ops::Mul<Output=T>` bound used by the generic functions. -/
structure Mul (T : Type) where
  mul : T → T → T

abbrev Vector2 (T : Type) := Fin 2 → T

abbrev Vector3 (T : Type) := Fin 3 → T

abbrev Vector4 (T : Type) := Fin 4 → T

abbrev Matrix2 (T : Type) := Fin 4 → T

abbrev Matrix3 (T : Type) := Fin 9 → T

abbrev Matrix4 (T : Type) := Fin 16 → T

variable {T : Type}

/-- Adds two Vector2 together (src/vector.rs `vec2_add`). -/
def vec2_add (addT : Add T) (lhs rhs : Vector2 T) : Vector2 T :=
  ![addT.add (lhs 0) (rhs 0),
    addT.add (lhs 1) (rhs 1)]

/-- Adds two Vector3 together (src/vector.rs `vec3_add`). -/
def vec3_add (addT : Add T) (lhs rhs : Vector3 T) : Vector3 T :=
  ![addT.add (lhs 0) (rhs 0),
    addT.add (lhs 1) (rhs 1),
    addT.add (lhs 2) (rhs 2)]

/-- Adds two Vector4 together (src/vector.rs `vec4_add`). -/
def vec4_add (addT : Add T) (lhs rhs : Vector4 T) : Vector4 T :=
  ![addT.add (lhs 0) (rhs 0),
    addT.add (lhs 1) (rhs 1),
    addT.add (lhs 2) (rhs 2),
    addT.add (lhs 3) (rhs 3)]

/-- Subtracts a Vector2 from another (src/vector.rs `vec2_sub`). -/
def vec2_sub (subT : Sub T) (lhs rhs : Vector2 T) : Vector2 T :=
  ![subT.sub (lhs 0) (rhs 0),
    subT.sub (lhs 1) (rhs 1)]

/-- Subtracts a Vector3 from another (src/vector.rs `vec3_sub`). -/
def vec3_sub (subT : Sub T) (lhs rhs : Vector3 T) : Vector3 T :=
  ![subT.sub (lhs 0) (rhs 0),
    subT.sub (lhs 1) (rhs 1),
    subT.sub (lhs 2) (rhs 2)]

/-- Subtracts a Vector4 from another (src/vector.rs `vec4_sub`). -/
def vec4_sub (subT : Sub T) (lhs rhs : Vector4 T) : Vector4 T :=
  ![subT.sub (lhs 0) (rhs 0),
    subT.sub (lhs 1) (rhs 1),
    subT.sub (lhs 2) (rhs 2),
    subT.sub (lhs 3) (rhs 3)]

/-- Multiplies a Vector2 by a scalar (src/vector.rs `vec2_mul`). -/
def vec2_mul (mulT : Mul T) (lhs : Vector2 T) (rhs : T) : Vector2 T :=
  ![mulT.mul (lhs 0) rhs,
    mulT.mul (lhs 1) rhs]

/-- Multiplies a Vector3 by a scalar (src/vector.rs `vec3_mul`). -/
def vec3_mul (mulT : Mul T) (lhs : Vector3 T) (rhs : T) : Vector3 T :=
  ![mulT.mul (lhs 0) rhs,
    mulT.mul (lhs 1) rhs,
    mulT.mul (lhs 2) rhs]

/-- Multiplies a Vector4 by a scalar (src/vector.rs `vec4_mul`). -/
def vec4_mul (mulT : Mul T) (lhs : Vector4 T) (rhs : T) : Vector4 T :=
  ![mulT.mul (lhs 0) rhs,
    mulT.mul (lhs 1) rhs,
    mulT.mul (lhs 2) rhs,
    mulT.mul (lhs 3) rhs]

/-- Folds the zipped component lists with `acc + a * b`, seeded with `zero()`
(src/vector.rs `dot_product`). -/
def dot_product (zeroT : Zero T) (mulT : Mul T) (addT : Add T)
    (lhs rhs : List T) : T :=
  (lhs.zip rhs).foldl (fun acc ab => addT.add acc (mulT.mul ab.1 ab.2)) zeroT.zero

/-- Calculates the dot product of two Vector2 (src/vector.rs `vec2_dot`). -/
def vec2_dot (zeroT : Zero T) (mulT : Mul T) (addT : Add T)
    (lhs rhs : Vector2 T) : T :=
  dot_product zeroT mulT addT (List.ofFn lhs) (List.ofFn rhs)

/-- Calculates the dot product of two Vector3 (src/vector.rs `vec3_dot`). -/
def vec3_dot (zeroT : Zero T) (mulT : Mul T) (addT : Add T)
    (lhs rhs : Vector3 T) : T :=
  dot_product zeroT mulT addT (List.ofFn lhs) (List.ofFn rhs)

/-- Calculates the dot product of two Vector4 (src/vector.rs `vec4_dot`). -/
def vec4_dot (zeroT : Zero T) (mulT : Mul T) (addT : Add T)
    (lhs rhs : Vector4 T) : T :=
  dot_product zeroT mulT addT (List.ofFn lhs) (List.ofFn rhs)

/-- Calculates the cross product of two Vector3 (src/vector.rs `vec3_cross`). -/
def vec3_cross (mulT : Mul T) (subT : Sub T) (lhs rhs : Vector3 T) : Vector3 T :=
  ![subT.sub (mulT.mul (lhs 1) (rhs 2)) (mulT.mul (lhs 2) (rhs 1)),
    subT.sub (mulT.mul (lhs 2) (rhs 0)) (mulT.mul (lhs 0) (rhs 2)),
    subT.sub (mulT.mul (lhs 0) (rhs 1)) (mulT.mul (lhs 1) (rhs 0))]

/-- Exact-integer instantiation of the scalar traits; models i32/i64 native
arithmetic at inputs where no overflow occurs. -/
def intZero : Zero Int := ⟨0⟩

/-- Exact-integer `One` instance. -/
def intOne : One Int := ⟨1⟩

/-- Exact-integer `Add` instance. -/
def intAdd : Add Int := ⟨fun a b => a + b⟩

/-- Exact-integer `Sub` instance. -/
def intSub : Sub Int := ⟨fun a b => a - b⟩

/-- Exact-integer `Mul` instance. -/
def intMul : Mul Int := ⟨fun a b => a * b⟩

/-- Two's-complement wrap of an integer into the i32 range, modelling Rust's
native wrapping i32 arithmetic. -/
def wrap32 (x : Int) : Int := (x + 2 ^ 31) % 2 ^ 32 - 2 ^ 31

/-- Two's-complement wrap of an integer into the i64 range, modelling Rust's
native wrapping i64 arithmetic. -/
def wrap64 (x : Int) : Int := (x + 2 ^ 63) % 2 ^ 64 - 2 ^ 63

/-- i32 native (wrapping) addition. -/
def i32Add : Add Int := ⟨fun a b => wrap32 (a + b)⟩

/-- i32 native (wrapping) subtraction. -/
def i32Sub : Sub Int := ⟨fun a b => wrap32 (a - b)⟩

/-- i32 native (wrapping) multiplication. -/
def i32Mul : Mul Int := ⟨fun a b => wrap32 (a * b)⟩

/-- i64 native (wrapping) addition. -/
def i64Add : Add Int := ⟨fun a b => wrap64 (a + b)⟩

/-- i64 native (wrapping) subtraction. -/
def i64Sub : Sub Int := ⟨fun a b => wrap64 (a - b)⟩

/-- i64 native (wrapping) multiplication. -/
def i64Mul : Mul Int := ⟨fun a b => wrap64 (a * b)⟩

/-- Returns the 2x2 identity matrix (src/matrix.rs `mat2_identity`). -/
def mat2_identity (oneT : One T) (zeroT : Zero T) : Matrix2 T :=
  ![oneT.one, zeroT.zero,
    zeroT.zero, oneT.one]

/-- Returns the 3x3 identity matrix (src/matrix.rs `mat3_identity`). -/
def mat3_identity (oneT : One T) (zeroT : Zero T) : Matrix3 T :=
  ![oneT.one, zeroT.zero, zeroT.zero,
    zeroT.zero, oneT.one, zeroT.zero,
    zeroT.zero, zeroT.zero, oneT.one]

/-- Returns the 4x4 identity matrix (src/matrix.rs `mat4_identity`). -/
def mat4_identity (oneT : One T) (zeroT : Zero T) : Matrix4 T :=
  ![oneT.one, zeroT.zero, zeroT.zero, zeroT.zero,
    zeroT.zero, oneT.one, zeroT.zero, zeroT.zero,
    zeroT.zero, zeroT.zero, oneT.one, zeroT.zero,
    zeroT.zero, zeroT.zero, zeroT.zero, oneT.one]

/-- Adds two 2x2 matrices together (src/matrix.rs `mat2_add`). -/
def mat2_add (addT : Add T) (lhs rhs : Matrix2 T) : Matrix2 T :=
  ![addT.add (lhs 0) (rhs 0), addT.add (lhs 1) (rhs 1),
    addT.add (lhs 2) (rhs 2), addT.add (lhs 3) (rhs 3)]

/-- Adds two 3x3 matrices together (src/matrix.rs `mat3_add`). -/
def mat3_add (addT : Add T) (lhs rhs : Matrix3 T) : Matrix3 T :=
  ![addT.add (lhs 0) (rhs 0), addT.add (lhs 1) (rhs 1), addT.add (lhs 2) (rhs 2),
    addT.add (lhs 3) (rhs 3), addT.add (lhs 4) (rhs 4), addT.add (lhs 5) (rhs 5),
    addT.add (lhs 6) (rhs 6), addT.add (lhs 7) (rhs 7), addT.add (lhs 8) (rhs 8)]

/-- Adds two 4x4 matrices together (src/matrix.rs `mat4_add`). -/
def mat4_add (addT : Add T) (lhs rhs : Matrix4 T) : Matrix4 T :=
  ![addT.add (lhs 0) (rhs 0), addT.add (lhs 1) (rhs 1),
    addT.add (lhs 2) (rhs 2), addT.add (lhs 3) (rhs 3),
    addT.add (lhs 4) (rhs 4), addT.add (lhs 5) (rhs 5),
    addT.add (lhs 6) (rhs 6), addT.add (lhs 7) (rhs 7),
    addT.add (lhs 8) (rhs 8), addT.add (lhs 9) (rhs 9),
    addT.add (lhs 10) (rhs 10), addT.add (lhs 11) (rhs 11),
    addT.add (lhs 12) (rhs 12), addT.add (lhs 13) (rhs 13),
    addT.add (lhs 14) (rhs 14), addT.add (lhs 15) (rhs 15)]

/-- Subtracts a 2x2 matrix from another (src/matrix.rs `mat2_sub`). -/
def mat2_sub (subT : Sub T) (lhs rhs : Matrix2 T) : Matrix2 T :=
  ![subT.sub (lhs 0) (rhs 0), subT.sub (lhs 1) (rhs 1),
    subT.sub (lhs 2) (rhs 2), subT.sub (lhs 3) (rhs 3)]

/-- Subtracts a 3x3 matrix from another (src/matrix.rs `mat3_sub`). -/
def mat3_sub (subT : Sub T) (lhs rhs : Matrix3 T) : Matrix3 T :=
  ![subT.sub (lhs 0) (rhs 0), subT.sub (lhs 1) (rhs 1), subT.sub (lhs 2) (rhs 2),
    subT.sub (lhs 3) (rhs 3), subT.sub (lhs 4) (rhs 4), subT.sub (lhs 5) (rhs 5),
    subT.sub (lhs 6) (rhs 6), subT.sub (lhs 7) (rhs 7), subT.sub (lhs 8) (rhs 8)]

/-- Subtracts a 4x4 matrix from another (src/matrix.rs `mat4_sub`). -/
def mat4_sub (subT : Sub T) (lhs rhs : Matrix4 T) : Matrix4 T :=
  ![subT.sub (lhs 0) (rhs 0), subT.sub (lhs 1) (rhs 1),
    subT.sub (lhs 2) (rhs 2), subT.sub (lhs 3) (rhs 3),
    subT.sub (lhs 4) (rhs 4), subT.sub (lhs 5) (rhs 5),
    subT.sub (lhs 6) (rhs 6), subT.sub (lhs 7) (rhs 7),
    subT.sub (lhs 8) (rhs 8), subT.sub (lhs 9) (rhs 9),
    subT.sub (lhs 10) (rhs 10), subT.sub (lhs 11) (rhs 11),
    subT.sub (lhs 12) (rhs 12), subT.sub (lhs 13) (rhs 13),
    subT.sub (lhs 14) (rhs 14), subT.sub (lhs 15) (rhs 15)]

/-- Multiplies a 2x2 matrix by a scalar (src/matrix.rs `mat2_scale`). -/
def mat2_scale (mulT : Mul T) (lhs : Matrix2 T) (rhs : T) : Matrix2 T :=
  ![mulT.mul (lhs 0) rhs, mulT.mul (lhs 1) rhs,
    mulT.mul (lhs 2) rhs, mulT.mul (lhs 3) rhs]

/-- Multiplies a 3x3 matrix by a scalar (src/matrix.rs `mat3_scale`). -/
def mat3_scale (mulT : Mul T) (lhs : Matrix3 T) (rhs : T) : Matrix3 T :=
  ![mulT.mul (lhs 0) rhs, mulT.mul (lhs 1) rhs, mulT.mul (lhs 2) rhs,
    mulT.mul (lhs 3) rhs, mulT.mul (lhs 4) rhs, mulT.mul (lhs 5) rhs,
    mulT.mul (lhs 6) rhs, mulT.mul (lhs 7) rhs, mulT.mul (lhs 8) rhs]

/-- Multiplies a 4x4 matrix by a scalar (src/matrix.rs `mat4_scale`). -/
def mat4_scale (mulT : Mul T) (lhs : Matrix4 T) (rhs : T) : Matrix4 T :=
  ![mulT.mul (lhs 0) rhs, mulT.mul (lhs 1) rhs,
    mulT.mul (lhs 2) rhs, mulT.mul (lhs 3) rhs,
    mulT.mul (lhs 4) rhs, mulT.mul (lhs 5) rhs,
    mulT.mul (lhs 6) rhs, mulT.mul (lhs 7) rhs,
    mulT.mul (lhs 8) rhs, mulT.mul (lhs 9) rhs,
    mulT.mul (lhs 10) rhs, mulT.mul (lhs 11) rhs,
    mulT.mul (lhs 12) rhs, mulT.mul (lhs 13) rhs,
    mulT.mul (lhs 14) rhs, mulT.mul (lhs 15) rhs]

/-- Multiplies two 2x2 matrices together (src/matrix.rs `mat2_mul`). -/
def mat2_mul (mulT : Mul T) (addT : Add T) (lhs rhs : Matrix2 T) : Matrix2 T :=
  ![addT.add (mulT.mul (lhs 0) (rhs 0)) (mulT.mul (lhs 1) (rhs 2)),
    addT.add (mulT.mul (lhs 0) (rhs 1)) (mulT.mul (lhs 1) (rhs 3)),
    addT.add (mulT.mul (lhs 2) (rhs 0)) (mulT.mul (lhs 3) (rhs 2)),
    addT.add (mulT.mul (lhs 2) (rhs 1)) (mulT.mul (lhs 3) (rhs 3))]

/-- Multiplies two 3x3 matrices together (src/matrix.rs `mat3_mul`). -/
def mat3_mul (mulT : Mul T) (addT : Add T) (lhs rhs : Matrix3 T) : Matrix3 T :=
  ![addT.add (addT.add (mulT.mul (lhs 0) (rhs 0)) (mulT.mul (lhs 1) (rhs 3))) (mulT.mul (lhs 2) (rhs 6)),
    addT.add (addT.add (mulT.mul (lhs 0) (rhs 1)) (mulT.mul (lhs 1) (rhs 4))) (mulT.mul (lhs 2) (rhs 7)),
    addT.add (addT.add (mulT.mul (lhs 0) (rhs 2)) (mulT.mul (lhs 1) (rhs 5))) (mulT.mul (lhs 2) (rhs 8)),
    addT.add (addT.add (mulT.mul (lhs 3) (rhs 0)) (mulT.mul (lhs 4) (rhs 3))) (mulT.mul (lhs 5) (rhs 6)),
    addT.add (addT.add (mulT.mul (lhs 3) (rhs 1)) (mulT.mul (lhs 4) (rhs 4))) (mulT.mul (lhs 5) (rhs 7)),
    addT.add (addT.add (mulT.mul (lhs 3) (rhs 2)) (mulT.mul (lhs 4) (rhs 5))) (mulT.mul (lhs 5) (rhs 8)),
    addT.add (addT.add (mulT.mul (lhs 6) (rhs 0)) (mulT.mul (lhs 7) (rhs 3))) (mulT.mul (lhs 8) (rhs 6)),
    addT.add (addT.add (mulT.mul (lhs 6) (rhs 1)) (mulT.mul (lhs 7) (rhs 4))) (mulT.mul (lhs 8) (rhs 7)),
    addT.add (addT.add (mulT.mul (lhs 6) (rhs 2)) (mulT.mul (lhs 7) (rhs 5))) (mulT.mul (lhs 8) (rhs 8))]

/-- Multiplies two 4x4 matrices together (src/matrix.rs `mat4_mul`). -/
def mat4_mul (mulT : Mul T) (addT : Add T) (lhs rhs : Matrix4 T) : Matrix4 T :=
  ![addT.add (addT.add (addT.add (mulT.mul (lhs 0) (rhs 0)) (mulT.mul (lhs 1) (rhs 4))) (mulT.mul (lhs 2) (rhs 8))) (mulT.mul (lhs 3) (rhs 12)),
    addT.add (addT.add (addT.add (mulT.mul (lhs 0) (rhs 1)) (mulT.mul (lhs 1) (rhs 5))) (mulT.mul (lhs 2) (rhs 9))) (mulT.mul (lhs 3) (rhs 13)),
    addT.add (addT.add (addT.add (mulT.mul (lhs 0) (rhs 2)) (mulT.mul (lhs 1) (rhs 6))) (mulT.mul (lhs 2) (rhs 10))) (mulT.mul (lhs 3) (rhs 14)),
    addT.add (addT.add (addT.add (mulT.mul (lhs 0) (rhs 3)) (mulT.mul (lhs 1) (rhs 7))) (mulT.mul (lhs 2) (rhs 11))) (mulT.mul (lhs 3) (rhs 15)),
    addT.add (addT.add (addT.add (mulT.mul (lhs 4) (rhs 0)) (mulT.mul (lhs 5) (rhs 4))) (mulT.mul (lhs 6) (rhs 8))) (mulT.mul (lhs 7) (rhs 12)),
    addT.add (addT.add (addT.add (mulT.mul (lhs 4) (rhs 1)) (mulT.mul (lhs 5) (rhs 5))) (mulT.mul (lhs 6) (rhs 9))) (mulT.mul (lhs 7) (rhs 13)),
    addT.add (addT.add (addT.add (mulT.mul (lhs 4) (rhs 2)) (mulT.mul (lhs 5) (rhs 6))) (mulT.mul (lhs 6) (rhs 10))) (mulT.mul (lhs 7) (rhs 14)),
    addT.add (addT.add (addT.add (mulT.mul (lhs 4) (rhs 3)) (mulT.mul (lhs 5) (rhs 7))) (mulT.mul (lhs 6) (rhs 11))) (mulT.mul (lhs 7) (rhs 15)),
    addT.add (addT.add (addT.add (mulT.mul (lhs 8) (rhs 0)) (mulT.mul (lhs 9) (rhs 4))) (mulT.mul (lhs 10) (rhs 8))) (mulT.mul (lhs 11) (rhs 12)),
    addT.add (addT.add (addT.add (mulT.mul (lhs 8) (rhs 1)) (mulT.mul (lhs 9) (rhs 5))) (mulT.mul (lhs 10) (rhs 9))) (mulT.mul (lhs 11) (rhs 13)),
    addT.add (addT.add (addT.add (mulT.mul (lhs 8) (rhs 2)) (mulT.mul (lhs 9) (rhs 6))) (mulT.mul (lhs 10) (rhs 10))) (mulT.mul (lhs 11) (rhs 14)),
    addT.add (addT.add (addT.add (mulT.mul (lhs 8) (rhs 3)) (mulT.mul (lhs 9) (rhs 7))) (mulT.mul (lhs 10) (rhs 11))) (mulT.mul (lhs 11) (rhs 15)),
    addT.add (addT.add (addT.add (mulT.mul (lhs 12) (rhs 0)) (mulT.mul (lhs 13) (rhs 4))) (mulT.mul (lhs 14) (rhs 8))) (mulT.mul (lhs 15) (rhs 12)),
    addT.add (addT.add (addT.add (mulT.mul (lhs 12) (rhs 1)) (mulT.mul (lhs 13) (rhs 5))) (mulT.mul (lhs 14) (rhs 9))) (mulT.mul (lhs 15) (rhs 13)),
    addT.add (addT.add (addT.add (mulT.mul (lhs 12) (rhs 2)) (mulT.mul (lhs 13) (rhs 6))) (mulT.mul (lhs 14) (rhs 10))) (mulT.mul (lhs 15) (rhs 14)),
    addT.add (addT.add (addT.add (mulT.mul (lhs 12) (rhs 3)) (mulT.mul (lhs 13) (rhs 7))) (mulT.mul (lhs 14) (rhs 11))) (mulT.mul (lhs 15) (rhs 15))]

/-- Transforms a vector using a 4x4 matrix (src/matrix.rs `mat4_transform_vec`). -/
def mat4_transform_vec (mulT : Mul T) (addT : Add T)
    (lhs : Matrix4 T) (rhs : Vector4 T) : Vector4 T :=
  ![addT.add (addT.add (addT.add (mulT.mul (lhs 0) (rhs 0)) (mulT.mul (lhs 1) (rhs 1))) (mulT.mul (lhs 2) (rhs 2))) (mulT.mul (lhs 3) (rhs 3)),
    addT.add (addT.add (addT.add (mulT.mul (lhs 4) (rhs 0)) (mulT.mul (lhs 5) (rhs 1))) (mulT.mul (lhs 6) (rhs 2))) (mulT.mul (lhs 7) (rhs 3)),
    addT.add (addT.add (addT.add (mulT.mul (lhs 8) (rhs 0)) (mulT.mul (lhs 9) (rhs 1))) (mulT.mul (lhs 10) (rhs 2))) (mulT.mul (lhs 11) (rhs 3)),
    addT.add (addT.add (addT.add (mulT.mul (lhs 12) (rhs 0)) (mulT.mul (lhs 13) (rhs 1))) (mulT.mul (lhs 14) (rhs 2))) (mulT.mul (lhs 15) (rhs 3))]

end Stones

namespace Stones

/-- C1: for every scalar type with One and Zero instances and every N ∈ {2,3,4},
matN_identity places one() at each main-diagonal flat index i*N+i and zero() at
every other flat index (equivalently, the entry at flat index j is one() exactly
when j / N = j % N, i.e. the main diagonal, not the anti-diagonal). -/
theorem c1_identity_main_diagonal :
    ∀ (T : Type) (oneT : One T) (zeroT : Zero T),
      ((∀ i : Fin 2, mat2_identity oneT zeroT ⟨i.val * 2 + i.val, by omega⟩ = oneT.one) ∧
       (∀ j : Fin 4, mat2_identity oneT zeroT j =
          if j.val / 2 = j.val % 2 then oneT.one else zeroT.zero)) ∧
      ((∀ i : Fin 3, mat3_identity oneT zeroT ⟨i.val * 3 + i.val, by omega⟩ = oneT.one) ∧
       (∀ j : Fin 9, mat3_identity oneT zeroT j =
          if j.val / 3 = j.val % 3 then oneT.one else zeroT.zero)) ∧
      ((∀ i : Fin 4, mat4_identity oneT zeroT ⟨i.val * 4 + i.val, by omega⟩ = oneT.one) ∧
       (∀ j : Fin 16, mat4_identity oneT zeroT j =
          if j.val / 4 = j.val % 4 then oneT.one else zeroT.zero)) := by
  intro T oneT zeroT
  refine ⟨⟨?_, ?_⟩, ⟨?_, ?_⟩, ⟨?_, ?_⟩⟩ <;> intro x <;> fin_cases x <;> rfl

/-- C3: for every scalar type with the required Zero, Mul and Add operations and
every N ∈ {2,3,4}, vecN_dot is the left-to-right fold
((zero + l0*r0) + l1*r1) + ... + l(N-1)*r(N-1), with exactly that
parenthesization, accumulated in ascending index order from zero(). -/
theorem c3_dot_left_fold :
    ∀ (T : Type) (zeroT : Zero T) (mulT : Mul T) (addT : Add T),
      (∀ lhs rhs : Vector2 T,
        vec2_dot zeroT mulT addT lhs rhs =
          addT.add (addT.add zeroT.zero (mulT.mul (lhs 0) (rhs 0)))
            (mulT.mul (lhs 1) (rhs 1))) ∧
      (∀ lhs rhs : Vector3 T,
        vec3_dot zeroT mulT addT lhs rhs =
          addT.add
            (addT.add (addT.add zeroT.zero (mulT.mul (lhs 0) (rhs 0)))
              (mulT.mul (lhs 1) (rhs 1)))
            (mulT.mul (lhs 2) (rhs 2))) ∧
      (∀ lhs rhs : Vector4 T,
        vec4_dot zeroT mulT addT lhs rhs =
          addT.add
            (addT.add
              (addT.add (addT.add zeroT.zero (mulT.mul (lhs 0) (rhs 0)))
                (mulT.mul (lhs 1) (rhs 1)))
              (mulT.mul (lhs 2) (rhs 2)))
            (mulT.mul (lhs 3) (rhs 3))) := by
  intro T zeroT mulT addT
  refine ⟨?_, ?_, ?_⟩ <;> intro lhs rhs <;> rfl

/-- C4: for every scalar type with the required Mul and Add operations, every
N ∈ {2,3,4} and all N×N row-major matrices lhs, rhs, the entry of
matN_mul lhs rhs at flat index r*N+c is the sum over k of
lhs[r*N+k] * rhs[k*N+c], accumulated left-associatively in ascending k order;
and concretely mat2_mul [1,2,3,4] [5,6,7,8] = [19,22,43,50] over the integers. -/
theorem c4_mat_mul_row_col_sum :
    (∀ (T : Type) (mulT : Mul T) (addT : Add T) (lhs rhs : Matrix2 T) (r c : Fin 2),
      mat2_mul mulT addT lhs rhs ⟨r.val * 2 + c.val, by omega⟩ =
        addT.add
          (mulT.mul (lhs ⟨r.val * 2 + 0, by omega⟩) (rhs ⟨0 * 2 + c.val, by omega⟩))
          (mulT.mul (lhs ⟨r.val * 2 + 1, by omega⟩) (rhs ⟨1 * 2 + c.val, by omega⟩))) ∧
    (∀ (T : Type) (mulT : Mul T) (addT : Add T) (lhs rhs : Matrix3 T) (r c : Fin 3),
      mat3_mul mulT addT lhs rhs ⟨r.val * 3 + c.val, by omega⟩ =
        addT.add
          (addT.add
            (mulT.mul (lhs ⟨r.val * 3 + 0, by omega⟩) (rhs ⟨0 * 3 + c.val, by omega⟩))
            (mulT.mul (lhs ⟨r.val * 3 + 1, by omega⟩) (rhs ⟨1 * 3 + c.val, by omega⟩)))
          (mulT.mul (lhs ⟨r.val * 3 + 2, by omega⟩) (rhs ⟨2 * 3 + c.val, by omega⟩))) ∧
    (∀ (T : Type) (mulT : Mul T) (addT : Add T) (lhs rhs : Matrix4 T) (r c : Fin 4),
      mat4_mul mulT addT lhs rhs ⟨r.val * 4 + c.val, by omega⟩ =
        addT.add
          (addT.add
            (addT.add
              (mulT.mul (lhs ⟨r.val * 4 + 0, by omega⟩) (rhs ⟨0 * 4 + c.val, by omega⟩))
              (mulT.mul (lhs ⟨r.val * 4 + 1, by omega⟩) (rhs ⟨1 * 4 + c.val, by omega⟩)))
            (mulT.mul (lhs ⟨r.val * 4 + 2, by omega⟩) (rhs ⟨2 * 4 + c.val, by omega⟩)))
          (mulT.mul (lhs ⟨r.val * 4 + 3, by omega⟩) (rhs ⟨3 * 4 + c.val, by omega⟩))) ∧
    mat2_mul intMul intAdd ![1, 2, 3, 4] ![5, 6, 7, 8] = ![19, 22, 43, 50] := by
  refine ⟨?_, ?_, ?_, ?_⟩
  · intro T mulT addT lhs rhs r c
    fin_cases r <;> fin_cases c <;> rfl
  · intro T mulT addT lhs rhs r c
    fin_cases r <;> fin_cases c <;> rfl
  · intro T mulT addT lhs rhs r c
    fin_cases r <;> fin_cases c <;> rfl
  · funext i
    fin_cases i <;> rfl

/-- C5: for every scalar type with the required Mul and Add operations, every
4×4 row-major matrix and every 4-component vector, the entry of
mat4_transform_vec at index r is the sum over c of lhs[r*4+c] * rhs[c],
accumulated in ascending c order; and concretely applying the diagonal matrix
diag(3,2,1,1) to [5,7,2,3] gives [15,14,2,3] over the integers. -/
theorem c5_transform_row_sum :
    (∀ (T : Type) (mulT : Mul T) (addT : Add T)
        (lhs : Matrix4 T) (rhs : Vector4 T) (r : Fin 4),
      mat4_transform_vec mulT addT lhs rhs r =
        addT.add
          (addT.add
            (addT.add
              (mulT.mul (lhs ⟨r.val * 4 + 0, by omega⟩) (rhs 0))
              (mulT.mul (lhs ⟨r.val * 4 + 1, by omega⟩) (rhs 1)))
            (mulT.mul (lhs ⟨r.val * 4 + 2, by omega⟩) (rhs 2)))
          (mulT.mul (lhs ⟨r.val * 4 + 3, by omega⟩) (rhs 3))) ∧
    mat4_transform_vec intMul intAdd
        ![3, 0, 0, 0, 0, 2, 0, 0, 0, 0, 1, 0, 0, 0, 0, 1] ![5, 7, 2, 3] =
      ![15, 14, 2, 3] := by
  constructor
  · intro T mulT addT lhs rhs r
    fin_cases r <;> rfl
  · funext i
    fin_cases i <;> rfl

/-- C6: for every pair of 3-component vectors over any scalar type with the
required Mul and Sub operations, `vec3_cross` returns
`[lhs[1]*rhs[2] - lhs[2]*rhs[1], lhs[2]*rhs[0] - lhs[0]*rhs[2],
lhs[0]*rhs[1] - lhs[1]*rhs[0]]`, and in particular
`vec3_cross [1,0,0] [0,1,0] = [0,0,1]` over the integers. -/
theorem c6_vec3_cross_formula :
    (∀ (T : Type) (mulT : Mul T) (subT : Sub T) (lhs rhs : Vector3 T),
      vec3_cross mulT subT lhs rhs =
        ![subT.sub (mulT.mul (lhs 1) (rhs 2)) (mulT.mul (lhs 2) (rhs 1)),
          subT.sub (mulT.mul (lhs 2) (rhs 0)) (mulT.mul (lhs 0) (rhs 2)),
          subT.sub (mulT.mul (lhs 0) (rhs 1)) (mulT.mul (lhs 1) (rhs 0))]) ∧
    vec3_cross intMul intSub ![1, 0, 0] ![0, 1, 0] = ![0, 0, 1] := by
  constructor
  · intro T mulT subT lhs rhs
    rfl
  · funext i
    fin_cases i <;> rfl

/-! Supporting development for the integer scalar kinds.  These cover the
exact-arithmetic content of the algebraic spec properties at the i32/i64
(wrapping) and exact-integer instantiations; the f32/f64 instantiations of
those properties concern native IEEE-754 arithmetic, which is outside this
embedding. -/

/-- Over the exact integers, zero() is a right additive identity and one() a
right multiplicative identity. -/
theorem int_zero_one_identities (x : Int) :
    intAdd.add x intZero.zero = x ∧ intMul.mul x intOne.one = x := by
  constructor <;> simp [intAdd, intMul, intZero, intOne]

/-- Over wrapping i32 arithmetic, zero() is a right additive identity and
one() a right multiplicative identity on every in-range value. -/
theorem i32_zero_one_identities (x : Int)
    (hlo : -2 ^ 31 ≤ x) (hhi : x < 2 ^ 31) :
    i32Add.add x intZero.zero = x ∧ i32Mul.mul x intOne.one = x := by
  constructor <;> simp [i32Add, i32Mul, intZero, intOne, wrap32] <;> omega

/-- Over wrapping i64 arithmetic, zero() is a right additive identity and
one() a right multiplicative identity on every in-range value. -/
theorem i64_zero_one_identities (x : Int)
    (hlo : -2 ^ 63 ≤ x) (hhi : x < 2 ^ 63) :
    i64Add.add x intZero.zero = x ∧ i64Mul.mul x intOne.one = x := by
  constructor <;> simp [i64Add, i64Mul, intZero, intOne, wrap64] <;> omega

/-- Over wrapping i32 arithmetic, subtraction undoes addition for all
in-range operands, even when the intermediate sum wraps. -/
theorem i32_sub_add_cancel (a b : Int)
    (ha : -2 ^ 31 ≤ a) (ha2 : a < 2 ^ 31)
    (_hb : -2 ^ 31 ≤ b) (_hb2 : b < 2 ^ 31) :
    i32Sub.sub (i32Add.add a b) b = a := by
  simp only [i32Sub, i32Add, wrap32]
  omega

/-- Over wrapping i64 arithmetic, subtraction undoes addition for all
in-range operands, even when the intermediate sum wraps. -/
theorem i64_sub_add_cancel (a b : Int)
    (ha : -2 ^ 63 ≤ a) (ha2 : a < 2 ^ 63)
    (_hb : -2 ^ 63 ≤ b) (_hb2 : b < 2 ^ 63) :
    i64Sub.sub (i64Add.add a b) b = a := by
  simp only [i64Sub, i64Add, wrap64]
  omega

/-- Over the exact integers, subtract(add(A, B), B) = A for every vector and
matrix shape of the library. -/
theorem int_sub_add_cancel_all_shapes :
    (∀ A B : Vector2 Int, vec2_sub intSub (vec2_add intAdd A B) B = A) ∧
    (∀ A B : Vector3 Int, vec3_sub intSub (vec3_add intAdd A B) B = A) ∧
    (∀ A B : Vector4 Int, vec4_sub intSub (vec4_add intAdd A B) B = A) ∧
    (∀ A B : Matrix2 Int, mat2_sub intSub (mat2_add intAdd A B) B = A) ∧
    (∀ A B : Matrix3 Int, mat3_sub intSub (mat3_add intAdd A B) B = A) ∧
    (∀ A B : Matrix4 Int, mat4_sub intSub (mat4_add intAdd A B) B = A) := by
  refine ⟨?_, ?_, ?_, ?_, ?_, ?_⟩ <;>
    · intro A B
      funext i
      fin_cases i <;> exact add_sub_cancel_right _ _

/-- Helper: dot of a 2-row of the identity with anything, one in slot 0. -/
theorem id2_row_a (x y : Int) : 1 * x + 0 * y = x := by ring

/-- Helper: dot of a 2-row of the identity with anything, one in slot 1. -/
theorem id2_row_b (x y : Int) : 0 * x + 1 * y = y := by ring

/-- Helper: dot of anything with a 2-column of the identity, one in slot 0. -/
theorem id2_col_a (x y : Int) : x * 1 + y * 0 = x := by ring

/-- Helper: dot of anything with a 2-column of the identity, one in slot 1. -/
theorem id2_col_b (x y : Int) : x * 0 + y * 1 = y := by ring

/-- Helper: dot of a 3-row of the identity with anything, one in slot 0. -/
theorem id3_row_a (x y z : Int) : 1 * x + 0 * y + 0 * z = x := by ring

/-- Helper: dot of a 3-row of the identity with anything, one in slot 1. -/
theorem id3_row_b (x y z : Int) : 0 * x + 1 * y + 0 * z = y := by ring

/-- Helper: dot of a 3-row of the identity with anything, one in slot 2. -/
theorem id3_row_c (x y z : Int) : 0 * x + 0 * y + 1 * z = z := by ring

/-- Helper: dot of anything with a 3-column of the identity, one in slot 0. -/
theorem id3_col_a (x y z : Int) : x * 1 + y * 0 + z * 0 = x := by ring

/-- Helper: dot of anything with a 3-column of the identity, one in slot 1. -/
theorem id3_col_b (x y z : Int) : x * 0 + y * 1 + z * 0 = y := by ring

/-- Helper: dot of anything with a 3-column of the identity, one in slot 2. -/
theorem id3_col_c (x y z : Int) : x * 0 + y * 0 + z * 1 = z := by ring

/-- Helper: dot of a 4-row of the identity with anything, one in slot 0. -/
theorem id4_row_a (x y z w : Int) : 1 * x + 0 * y + 0 * z + 0 * w = x := by ring

/-- Helper: dot of a 4-row of the identity with anything, one in slot 1. -/
theorem id4_row_b (x y z w : Int) : 0 * x + 1 * y + 0 * z + 0 * w = y := by ring

/-- Helper: dot of a 4-row of the identity with anything, one in slot 2. -/
theorem id4_row_c (x y z w : Int) : 0 * x + 0 * y + 1 * z + 0 * w = z := by ring

/-- Helper: dot of a 4-row of the identity with anything, one in slot 3. -/
theorem id4_row_d (x y z w : Int) : 0 * x + 0 * y + 0 * z + 1 * w = w := by ring

/-- Helper: dot of anything with a 4-column of the identity, one in slot 0. -/
theorem id4_col_a (x y z w : Int) : x * 1 + y * 0 + z * 0 + w * 0 = x := by ring

/-- Helper: dot of anything with a 4-column of the identity, one in slot 1. -/
theorem id4_col_b (x y z w : Int) : x * 0 + y * 1 + z * 0 + w * 0 = y := by ring

/-- Helper: dot of anything with a 4-column of the identity, one in slot 2. -/
theorem id4_col_c (x y z w : Int) : x * 0 + y * 0 + z * 1 + w * 0 = z := by ring

/-- Helper: dot of anything with a 4-column of the identity, one in slot 3. -/
theorem id4_col_d (x y z w : Int) : x * 0 + y * 0 + z * 0 + w * 1 = w := by ring

set_option maxHeartbeats 2000000 in
/-- Over the exact integers, the identity matrix is a two-sided identity for
matrix multiplication, for every N ∈ {2,3,4}. -/
theorem int_identity_mul_both_sides :
    (∀ M : Matrix2 Int,
      mat2_mul intMul intAdd (mat2_identity intOne intZero) M = M ∧
      mat2_mul intMul intAdd M (mat2_identity intOne intZero) = M) ∧
    (∀ M : Matrix3 Int,
      mat3_mul intMul intAdd (mat3_identity intOne intZero) M = M ∧
      mat3_mul intMul intAdd M (mat3_identity intOne intZero) = M) ∧
    (∀ M : Matrix4 Int,
      mat4_mul intMul intAdd (mat4_identity intOne intZero) M = M ∧
      mat4_mul intMul intAdd M (mat4_identity intOne intZero) = M) := by
  refine ⟨fun M => ⟨?_, ?_⟩, fun M => ⟨?_, ?_⟩, fun M => ⟨?_, ?_⟩⟩
  · funext i
    fin_cases i <;> first | exact id2_row_a _ _ | exact id2_row_b _ _
  · funext i
    fin_cases i <;> first | exact id2_col_a _ _ | exact id2_col_b _ _
  · funext i
    fin_cases i <;>
      first
      | exact id3_row_a _ _ _
      | exact id3_row_b _ _ _
      | exact id3_row_c _ _ _
  · funext i
    fin_cases i <;>
      first
      | exact id3_col_a _ _ _
      | exact id3_col_b _ _ _
      | exact id3_col_c _ _ _
  · funext i
    fin_cases i <;>
      first
      | exact id4_row_a _ _ _ _
      | exact id4_row_b _ _ _ _
      | exact id4_row_c _ _ _ _
      | exact id4_row_d _ _ _ _
  · funext i
    fin_cases i <;>
      first
      | exact id4_col_a _ _ _ _
      | exact id4_col_b _ _ _ _
      | exact id4_col_c _ _ _ _
      | exact id4_col_d _ _ _ _

/-- Helper: one row of the 4×4 composition identity, expanded to scalars. -/
theorem row_compose_helper
    (a0 a1 a2 a3 b0 b1 b2 b3 b4 b5 b6 b7 b8 b9 b10 b11 b12 b13 b14 b15
      v0 v1 v2 v3 : Int) :
    (a0 * b0 + a1 * b4 + a2 * b8 + a3 * b12) * v0 +
        (a0 * b1 + a1 * b5 + a2 * b9 + a3 * b13) * v1 +
        (a0 * b2 + a1 * b6 + a2 * b10 + a3 * b14) * v2 +
        (a0 * b3 + a1 * b7 + a2 * b11 + a3 * b15) * v3 =
      a0 * (b0 * v0 + b1 * v1 + b2 * v2 + b3 * v3) +
        a1 * (b4 * v0 + b5 * v1 + b6 * v2 + b7 * v3) +
        a2 * (b8 * v0 + b9 * v1 + b10 * v2 + b11 * v3) +
        a3 * (b12 * v0 + b13 * v1 + b14 * v2 + b15 * v3) := by
  ring

/-- Over the exact integers, transforming by a product of 4×4 matrices equals
transforming by the right factor and then the left factor. -/
theorem int_transform_mul_compose (A B : Matrix4 Int) (v : Vector4 Int) :
    mat4_transform_vec intMul intAdd (mat4_mul intMul intAdd A B) v =
      mat4_transform_vec intMul intAdd A (mat4_transform_vec intMul intAdd B v) := by
  funext i
  fin_cases i <;>
    exact row_compose_helper _ _ _ _ _ _ _ _ _ _ _ _ _ _ _ _ _ _ _ _ _ _ _ _

/-- Over the exact integers, scaling by one() is the identity map on every
vector and matrix shape of the library. -/
theorem int_scale_by_one_identity :
    (∀ v : Vector2 Int, vec2_mul intMul v intOne.one = v) ∧
    (∀ v : Vector3 Int, vec3_mul intMul v intOne.one = v) ∧
    (∀ v : Vector4 Int, vec4_mul intMul v intOne.one = v) ∧
    (∀ M : Matrix2 Int, mat2_scale intMul M intOne.one = M) ∧
    (∀ M : Matrix3 Int, mat3_scale intMul M intOne.one = M) ∧
    (∀ M : Matrix4 Int, mat4_scale intMul M intOne.one = M) := by
  refine ⟨?_, ?_, ?_, ?_, ?_, ?_⟩ <;>
    · intro x
      funext i
      fin_cases i <;> exact mul_one _

end Stones
